import Mathlib

/-!
Verification of the noisysockets/telemetry reporter.

This file gives a shallow embedding of the Go telemetry reporter
(reporter.go, the errgroup-based reference variant, together with
internal/util's GenerateID) and proves the specified properties about it.

Modelling choices:
- Protobuf timestamps are modelled as `Nat` instants; `timestamppb.Now()`
  becomes an explicit `now : Nat` argument, and an unset timestamp field is
  `Option.none`.
- The secure random source behind `crypto/rand`'s `rand.Int(reader, 62)` is
  modelled as a function `Nat → Fin 62` giving, for each position, the value
  returned by the reader (always in `[0, 62)`, as `rand.Int` guarantees).
- The process environment (`os.Getenv`) is a function `String → String`.
- `errgroup.Group` with `SetLimit` is modelled by its observable state: the
  limit and the number of in-flight tasks (for `TryGo`), plus the list of
  task return values in completion order (for `Wait`, which yields the first
  non-nil return value, or nil if all are nil).
- Goroutine dispatch is modelled by recording the event captured by the
  dispatched closure; the closure body itself is `Reporter.sendTask`, a
  function of the transport outcome of `client.Report`.
- Slog logging is modelled as a list of emitted (level, message) pairs, and
  `fmt.Println` output as a list of written stdout lines.
-/

/-- Log levels used by the reporter via log/slog. -/
inductive LogLevel where
  | debug
  | info
  | warn
deriving DecidableEq, Repr

/-- A structured log record: level and message. -/
structure LogMsg where
  level : LogLevel
  text : String
deriving DecidableEq, Repr

/-- Kind of a telemetry event (proto enum TelemetryEventKind). -/
inductive TelemetryEventKind where
  | info
  | warning
  | error
deriving DecidableEq, Repr

/-- A stack frame of an error event (proto message StackFrame). -/
structure StackFrame where
  file : String
  function : String
  line : Int
  column : Int
deriving DecidableEq, Repr

/-- A telemetry event (proto message TelemetryEvent). Field names follow the
proto schema; `timestamp` is `none` when the field is unset. -/
structure TelemetryEvent where
  sessionId : String
  timestamp : Option Nat
  kind : TelemetryEventKind
  name : String
  message : String
  values : List (String × String)
  stackTrace : List StackFrame
  tags : List String
deriving DecidableEq, Repr

/-- A Go error, as far as the reporter distinguishes them: `context.Canceled`
versus anything else. `errors.Is(err, context.Canceled)` is `isCanceled`. -/
inductive GoError where
  | canceled
  | other (msg : String)
deriving DecidableEq, Repr

/-- The check `errors.Is(err, context.Canceled)`. -/
def GoError.isCanceled : GoError → Bool
  | .canceled => true
  | .other _ => false

/-- String rendering of an error, as printed by fmt.Println. -/
def GoError.message : GoError → String
  | .canceled => "context canceled"
  | .other m => m

/-- The constant `maxConcurrentReports = 16` from reporter.go. -/
def maxConcurrentReports : Nat := 16

/-- The constant `telemetryOptOutEnvVar = "NSH_NO_TELEMETRY"` from reporter.go. -/
def telemetryOptOutEnvVar : String := "NSH_NO_TELEMETRY"

/-- The alphabet used by internal/util's GenerateID:
lowercase, uppercase, digits. -/
def letters : String := "abcdefghijklmnopqrstuvwxyzABCDEFGHIJKLMNOPQRSTUVWXYZ0123456789"

/-- Embedding of internal/util's `GenerateID(n int) string`: for each of the
`n` positions, draw a value below `len(letters)` from the secure random
source and index into `letters`. -/
def GenerateID (n : Nat) (rand : Nat → Fin 62) : String :=
  String.mk ((List.range n).map (fun i => letters.data.getD (rand i).val 'a'))

/-- The errgroup.Group state visible to `TryGo`: the `SetLimit` value and the
number of currently in-flight tasks. -/
structure Errgroup where
  limit : Nat
  active : Nat
deriving DecidableEq, Repr

/-- Embedding of `errgroup.Group.TryGo`: starts the task (and returns true)
exactly when the number of in-flight tasks is below the limit; otherwise
returns false without blocking and without retaining the task. -/
def Errgroup.tryGo (g : Errgroup) : Bool × Errgroup :=
  if g.active < g.limit then (true, { g with active := g.active + 1 })
  else (false, g)

/-- Embedding of `errgroup.Group.Wait`'s error result: the first non-nil
value returned by a task, in completion order (errgroup records only the
first non-nil error), or nil when every task returned nil. -/
def waitResult : List (Option GoError) → Option GoError
  | [] => none
  | none :: rest => waitResult rest
  | some e :: _ => some e

/-- The reporter state (struct Reporter in reporter.go). The transport client
handle and logger are ambient (modelled by the transport outcomes and log
outputs of the operations), so only the data the control flow reads is kept. -/
structure ReporterState where
  authToken : String
  sessionID : String
  tags : List String
  enabled : Bool
  shuttingDown : Bool
  group : Errgroup
deriving DecidableEq, Repr

/-- The telemetry reporter Configuration struct (BaseURL / AuthToken / Tags;
the optional HTTPClient only affects transport plumbing, which is ambient). -/
structure Configuration where
  baseURL : String
  authToken : String
  tags : List String
deriving DecidableEq, Repr

/-- Embedding of `NewReporter(ctx, logger, conf)`: reads the opt-out
environment variable once, generates a 16-character session id, stores the
configured auth token and tags, and creates the errgroup with limit
`maxConcurrentReports`. Returns the reporter and the log lines emitted. -/
def NewReporter (env : String → String) (conf : Configuration)
    (rand : Nat → Fin 62) : ReporterState × List LogMsg :=
  let enabled := env telemetryOptOutEnvVar == ""
  let logs := if enabled then []
    else [LogMsg.mk LogLevel.info "Telemetry reporting is disabled"]
  ({ authToken := conf.authToken
     sessionID := GenerateID 16 rand
     tags := conf.tags
     enabled := enabled
     shuttingDown := false
     group := { limit := maxConcurrentReports, active := 0 } }, logs)

/-- A connect request as the reporter builds it: the event payload and the
headers set on it. -/
structure Request where
  msg : TelemetryEvent
  headers : List (String × String)
deriving DecidableEq, Repr

/-- Embedding of the request construction inside the dispatched closure of
`ReportEvent`: wrap the event, then set the Authorization bearer header
exactly when the configured auth token is non-empty. -/
def buildRequest (authToken : String) (event : TelemetryEvent) : Request :=
  let req : Request := { msg := event, headers := [] }
  if authToken != "" then
    { req with headers := [("Authorization", "Bearer " ++ authToken)] }
  else req

/-- The observable behaviour of one background submission task. -/
structure TaskResult where
  retVal : Option GoError
  logs : List LogMsg
  stdout : List String
deriving DecidableEq, Repr

/-- Embedding of the closure dispatched by `ReportEvent` (the body passed to
`reports.TryGo`), as a function of the outcome of `client.Report`:
builds the request (with bearer header when configured); on a transport
error, prints a line to stdout with fmt.Println and logs at debug level;
always returns nil to the errgroup. Returns the request it sent together
with its observable behaviour. -/
def Reporter.sendTask (authToken : String) (event : TelemetryEvent)
    (transportErr : Option GoError) : Request × TaskResult :=
  let req := buildRequest authToken event
  match transportErr with
  | some err =>
      (req, { retVal := none
              logs := [LogMsg.mk LogLevel.debug "Failed to report event"]
              stdout := ["Failed to report event " ++ err.message] })
  | none => (req, { retVal := none, logs := [], stdout := [] })

/-- Everything observable about one `ReportEvent` call: the event as the
caller sees it afterwards (Go mutates it in place), the log lines emitted
synchronously, whether a background task was dispatched, the event captured
by the dispatched closure (if any), and the updated reporter state. -/
structure ReportOutcome where
  event : TelemetryEvent
  logs : List LogMsg
  dispatched : Bool
  pending : Option TelemetryEvent
  state : ReporterState
deriving DecidableEq, Repr

/-- Embedding of `Reporter.ReportEvent(event)`, reporter.go lines 149-191:
1. if disabled, debug-log and return with the event untouched;
2. overwrite the timestamp with the current time;
3. if the session id is empty, set it to the reporter's session id;
4. append the reporter's configured tags to the event's tags;
5. if shutting down, debug-log and return;
6. TryGo the submission closure: on success the mutated event is captured by
   the background task; on failure (group at its limit) warn-log and drop. -/
def Reporter.ReportEvent (r : ReporterState) (event : TelemetryEvent)
    (now : Nat) : ReportOutcome :=
  if !r.enabled then
    { event := event
      logs := [LogMsg.mk LogLevel.debug "Telemetry reporting is disabled, dropping event"]
      dispatched := false, pending := none, state := r }
  else
    let event := { event with timestamp := some now }
    let event := if event.sessionId == "" then { event with sessionId := r.sessionID }
      else event
    let event := { event with tags := event.tags ++ r.tags }
    if r.shuttingDown then
      { event := event
        logs := [LogMsg.mk LogLevel.debug "Shutting down, dropping event"]
        dispatched := false, pending := none, state := r }
    else
      let res := r.group.tryGo
      if res.fst then
        { event := event, logs := [], dispatched := true, pending := some event
          state := { r with group := res.snd } }
      else
        { event := event
          logs := [LogMsg.mk LogLevel.warn "Too many in-flight telemetry reports, dropping event"]
          dispatched := false, pending := none, state := r }

/-- The first statement of `Reporter.Shutdown`: `r.shuttingDown.Store(true)`. -/
def Reporter.shutdownBegin (r : ReporterState) : ReporterState :=
  { r with shuttingDown := true }

/-- The check `err != nil && !errors.Is(err, context.Canceled)` applied to a
Wait result, as both `Close` and `Shutdown` do: a nil or cancellation result
becomes a nil return, anything else is returned as-is. -/
def dropCanceled (waitErr : Option GoError) : Option GoError :=
  match waitErr with
  | some e => if !e.isCanceled then some e else none
  | none => none

/-- Embedding of `Reporter.Close()`: injects a task returning
`context.Canceled` into the group (modelled by appending its return value to
the completion order; `waitResult` is insensitive to where a non-nil value
sits after the first one), waits, and filters a cancellation outcome to nil.
`taskResults` are the return values of the background submission tasks in
completion order. -/
def Reporter.Close (taskResults : List (Option GoError)) : Option GoError :=
  dropCanceled (waitResult (taskResults ++ [some GoError.canceled]))

/-- Which arm of `Shutdown`'s select fires first: the caller's deadline, or
the completion of the graceful Wait. -/
inductive ShutdownRace where
  | deadlineFirst
  | reportsFirst
deriving DecidableEq, Repr

/-- Embedding of `Reporter.Shutdown(ctx)` after the shutting-down flag is
stored: it races the deadline against the group draining. If the deadline
fires first it falls back to `Close`; otherwise it filters the Wait result
exactly as `Close` does. -/
def Reporter.Shutdown (race : ShutdownRace)
    (taskResults : List (Option GoError)) : Option GoError :=
  match race with
  | .deadlineFirst => Reporter.Close taskResults
  | .reportsFirst => dropCanceled (waitResult taskResults)

/-- The reporter operations that touch the shared state, for the monotonicity
of the shutting-down flag. -/
inductive ReporterOp where
  | reportEvent (event : TelemetryEvent) (now : Nat)
  | shutdownBegin
deriving Repr

/-- State effect of one reporter operation. -/
def Reporter.applyOp (r : ReporterState) : ReporterOp → ReporterState
  | .reportEvent event now => (Reporter.ReportEvent r event now).state
  | .shutdownBegin => Reporter.shutdownBegin r

/-! ## Helper lemmas -/

/-- The event stamping performed by the enabled path of `ReportEvent`,
written as a single record update (used only to state lemmas; the embedding
above follows the code's statement order). -/
def stampedEvent (r : ReporterState) (event : TelemetryEvent) (now : Nat) :
    TelemetryEvent :=
  { event with
    sessionId := if event.sessionId == "" then r.sessionID else event.sessionId
    timestamp := some now
    tags := event.tags ++ r.tags }

theorem reportEvent_enabled_eq (r : ReporterState) (event : TelemetryEvent)
    (now : Nat) (hen : r.enabled = true) :
    Reporter.ReportEvent r event now =
      if r.shuttingDown then
        { event := stampedEvent r event now
          logs := [LogMsg.mk LogLevel.debug "Shutting down, dropping event"]
          dispatched := false, pending := none, state := r }
      else if (r.group.tryGo).fst then
        { event := stampedEvent r event now, logs := [], dispatched := true
          pending := some (stampedEvent r event now)
          state := { r with group := (r.group.tryGo).snd } }
      else
        { event := stampedEvent r event now
          logs := [LogMsg.mk LogLevel.warn "Too many in-flight telemetry reports, dropping event"]
          dispatched := false, pending := none, state := r } := by
  unfold Reporter.ReportEvent stampedEvent
  rw [hen]
  cases h : event.sessionId == "" <;> simp [h]

theorem reportEvent_disabled_eq (r : ReporterState) (event : TelemetryEvent)
    (now : Nat) (hen : r.enabled = false) :
    Reporter.ReportEvent r event now =
      { event := event
        logs := [LogMsg.mk LogLevel.debug "Telemetry reporting is disabled, dropping event"]
        dispatched := false, pending := none, state := r } := by
  unfold Reporter.ReportEvent
  rw [hen]
  rfl

theorem stampedEvent_sessionId_ne (r : ReporterState) (event : TelemetryEvent)
    (now : Nat) (hsid : r.sessionID ≠ "") :
    (stampedEvent r event now).sessionId ≠ "" := by
  unfold stampedEvent
  cases h : event.sessionId == "" <;> simp_all

theorem errgroup_tryGo_full (g : Errgroup) (h : g.limit ≤ g.active) :
    g.tryGo = (false, g) := by
  unfold Errgroup.tryGo
  rw [if_neg (Nat.not_lt.mpr h)]

/-! ## Claims -/

/-- Claim C1, counterexample: the claim quantifies over every reporter state
"including a disabled one", but a disabled reporter returns before stamping
anything. Concretely, a disabled reporter with configured tags given an
event with empty session id, no timestamp and no tags leaves the event
entirely untouched: its session id stays empty, its timestamp is not
assigned, and its tags do not gain the configured tag. -/
theorem C1_counterexample :
    ¬ (((Reporter.ReportEvent
          { authToken := "", sessionID := "AAAABBBBCCCCDDDD", tags := ["cfg"]
            enabled := false, shuttingDown := false
            group := { limit := 16, active := 0 } }
          { sessionId := "", timestamp := none, kind := TelemetryEventKind.info
            name := "start", message := "", values := [], stackTrace := []
            tags := [] } 5).event.sessionId ≠ "") ∧
        (Reporter.ReportEvent
          { authToken := "", sessionID := "AAAABBBBCCCCDDDD", tags := ["cfg"]
            enabled := false, shuttingDown := false
            group := { limit := 16, active := 0 } }
          { sessionId := "", timestamp := none, kind := TelemetryEventKind.info
            name := "start", message := "", values := [], stackTrace := []
            tags := [] } 5).event.timestamp = some 5 ∧
        (Reporter.ReportEvent
          { authToken := "", sessionID := "AAAABBBBCCCCDDDD", tags := ["cfg"]
            enabled := false, shuttingDown := false
            group := { limit := 16, active := 0 } }
          { sessionId := "", timestamp := none, kind := TelemetryEventKind.info
            name := "start", message := "", values := [], stackTrace := []
            tags := [] } 5).event.tags = [] ++ ["cfg"]) := by
  decide

/-- Claim C1 as amended: for every TelemetryEvent passed to `ReportEvent` on
an ENABLED reporter (in any state: shutting down or not, at capacity or
not), whose session id is non-empty (as `NewReporter` guarantees), after
`ReportEvent` returns the event's session id is non-empty, its timestamp is
the freshly assigned submission instant, and its tag list is the caller's
tags followed by the reporter-configured tags, without deduplication. -/
theorem C1_enabled_event_stamped (r : ReporterState) (event : TelemetryEvent)
    (now : Nat) (hen : r.enabled = true) (hsid : r.sessionID ≠ "") :
    (Reporter.ReportEvent r event now).event.sessionId ≠ "" ∧
    (Reporter.ReportEvent r event now).event.timestamp = some now ∧
    (Reporter.ReportEvent r event now).event.tags = event.tags ++ r.tags := by
  rw [reportEvent_enabled_eq r event now hen]
  have h1 := stampedEvent_sessionId_ne r event now hsid
  split
  · exact ⟨h1, rfl, rfl⟩
  · split
    · exact ⟨h1, rfl, rfl⟩
    · exact ⟨h1, rfl, rfl⟩

/-- Witness for C1's amended theorem at a concrete enabled reporter. -/
theorem C1_witness :
    (Reporter.ReportEvent
      { authToken := "", sessionID := "AAAABBBBCCCCDDDD", tags := ["cfg"]
        enabled := true, shuttingDown := false
        group := { limit := 16, active := 0 } }
      { sessionId := "", timestamp := none, kind := TelemetryEventKind.info
        name := "start", message := "", values := [], stackTrace := []
        tags := ["user"] } 5).event.sessionId ≠ "" ∧
    (Reporter.ReportEvent
      { authToken := "", sessionID := "AAAABBBBCCCCDDDD", tags := ["cfg"]
        enabled := true, shuttingDown := false
        group := { limit := 16, active := 0 } }
      { sessionId := "", timestamp := none, kind := TelemetryEventKind.info
        name := "start", message := "", values := [], stackTrace := []
        tags := ["user"] } 5).event.timestamp = some 5 ∧
    (Reporter.ReportEvent
      { authToken := "", sessionID := "AAAABBBBCCCCDDDD", tags := ["cfg"]
        enabled := true, shuttingDown := false
        group := { limit := 16, active := 0 } }
      { sessionId := "", timestamp := none, kind := TelemetryEventKind.info
        name := "start", message := "", values := [], stackTrace := []
        tags := ["user"] } 5).event.tags = ["user"] ++ ["cfg"] :=
  C1_enabled_event_stamped _ _ 5 (by decide) (by decide)

/-- Claim C7: on an enabled reporter, an empty caller session id is replaced
by the reporter's session id, and a non-empty caller session id is left
unchanged. -/
theorem C7_sessionId_assignment (r : ReporterState) (event : TelemetryEvent)
    (now : Nat) (hen : r.enabled = true) :
    (event.sessionId = "" →
      (Reporter.ReportEvent r event now).event.sessionId = r.sessionID) ∧
    (event.sessionId ≠ "" →
      (Reporter.ReportEvent r event now).event.sessionId = event.sessionId) := by
  rw [reportEvent_enabled_eq r event now hen]
  constructor
  · intro he
    split <;> (try split) <;> simp [stampedEvent, he]
  · intro he
    split <;> (try split) <;> simp [stampedEvent, he]

/-- Witness for C7 at a concrete enabled reporter: an empty caller session id
receives the reporter's id; a non-empty one is preserved. -/
theorem C7_witness :
    (Reporter.ReportEvent
      { authToken := "", sessionID := "AAAABBBBCCCCDDDD", tags := []
        enabled := true, shuttingDown := false
        group := { limit := 16, active := 0 } }
      { sessionId := "", timestamp := none, kind := TelemetryEventKind.info
        name := "n", message := "", values := [], stackTrace := [], tags := [] }
      7).event.sessionId = "AAAABBBBCCCCDDDD" ∧
    (Reporter.ReportEvent
      { authToken := "", sessionID := "AAAABBBBCCCCDDDD", tags := []
        enabled := true, shuttingDown := false
        group := { limit := 16, active := 0 } }
      { sessionId := "caller-id", timestamp := none
        kind := TelemetryEventKind.info, name := "n", message := ""
        values := [], stackTrace := [], tags := [] }
      7).event.sessionId = "caller-id" :=
  ⟨(C7_sessionId_assignment _ _ 7 (by decide)).1 rfl,
   (C7_sessionId_assignment _ _ 7 (by decide)).2 (by decide)⟩

theorem reportEvent_preserves_flags (r : ReporterState) (event : TelemetryEvent)
    (now : Nat) :
    (Reporter.ReportEvent r event now).state.shuttingDown = r.shuttingDown ∧
    (Reporter.ReportEvent r event now).state.enabled = r.enabled := by
  cases hen : r.enabled
  · rw [reportEvent_disabled_eq r event now hen]
    exact ⟨rfl, hen⟩
  · rw [reportEvent_enabled_eq r event now hen]
    split
    · exact ⟨rfl, hen⟩
    · split <;> exact ⟨rfl, hen⟩

/-- Claim C3: on an enabled, not-shutting-down reporter whose task group is
at its concurrency ceiling (`maxConcurrentReports = 16` in `NewReporter`),
the dispatch attempt fails immediately: no task starts, the event is dropped
with a warning-level log, and the reporter state (in particular the group:
nothing is queued) is unchanged. `ReportEvent` is a total function of its
inputs here, so the caller is never blocked. -/
theorem C3_at_capacity_drops (r : ReporterState) (event : TelemetryEvent)
    (now : Nat) (hen : r.enabled = true) (hsd : r.shuttingDown = false)
    (hcap : r.group.limit ≤ r.group.active) :
    (Reporter.ReportEvent r event now).dispatched = false ∧
    (Reporter.ReportEvent r event now).pending = none ∧
    (Reporter.ReportEvent r event now).logs =
      [LogMsg.mk LogLevel.warn "Too many in-flight telemetry reports, dropping event"] ∧
    (Reporter.ReportEvent r event now).state = r ∧
    maxConcurrentReports = 16 := by
  rw [reportEvent_enabled_eq r event now hen, hsd,
    errgroup_tryGo_full r.group hcap]
  simp [maxConcurrentReports]

/-- Witness for C3 at a concrete reporter with 16 in-flight submissions. -/
theorem C3_witness :
    (Reporter.ReportEvent
      { authToken := "", sessionID := "AAAABBBBCCCCDDDD", tags := []
        enabled := true, shuttingDown := false
        group := { limit := 16, active := 16 } }
      { sessionId := "", timestamp := none, kind := TelemetryEventKind.info
        name := "n", message := "", values := [], stackTrace := [], tags := [] }
      9).dispatched = false ∧
    (Reporter.ReportEvent
      { authToken := "", sessionID := "AAAABBBBCCCCDDDD", tags := []
        enabled := true, shuttingDown := false
        group := { limit := 16, active := 16 } }
      { sessionId := "", timestamp := none, kind := TelemetryEventKind.info
        name := "n", message := "", values := [], stackTrace := [], tags := [] }
      9).logs =
      [LogMsg.mk LogLevel.warn "Too many in-flight telemetry reports, dropping event"] :=
  ⟨(C3_at_capacity_drops _ _ 9 (by decide) (by decide) (by decide)).1,
   (C3_at_capacity_drops _ _ 9 (by decide) (by decide) (by decide)).2.2.1⟩

/-- Claim C4: `Shutdown` sets the shutting-down flag; once the flag is set no
reporter operation ever clears it (monotonic false-to-true); and on an
enabled shutting-down reporter, `ReportEvent` drops the event with a
debug-level log, dispatches no background task, and leaves the state
unchanged. -/
theorem C4_shuttingDown_monotonic (r : ReporterState) (op : ReporterOp)
    (event : TelemetryEvent) (now : Nat) (hsd : r.shuttingDown = true) :
    (Reporter.applyOp r op).shuttingDown = true ∧
    (∀ r2 : ReporterState, (Reporter.shutdownBegin r2).shuttingDown = true) ∧
    (r.enabled = true →
      (Reporter.ReportEvent r event now).dispatched = false ∧
      (Reporter.ReportEvent r event now).pending = none ∧
      (Reporter.ReportEvent r event now).state = r ∧
      (Reporter.ReportEvent r event now).logs =
        [LogMsg.mk LogLevel.debug "Shutting down, dropping event"]) := by
  refine ⟨?_, fun r2 => rfl, ?_⟩
  · cases op with
    | reportEvent e n => rw [Reporter.applyOp, (reportEvent_preserves_flags r e n).1, hsd]
    | shutdownBegin => rfl
  · intro hen
    rw [reportEvent_enabled_eq r event now hen]
    simp [hsd]

/-- Witness for C4 at a concrete shutting-down reporter. -/
theorem C4_witness :
    (Reporter.applyOp
      { authToken := "", sessionID := "AAAABBBBCCCCDDDD", tags := []
        enabled := true, shuttingDown := true
        group := { limit := 16, active := 0 } }
      ReporterOp.shutdownBegin).shuttingDown = true ∧
    (Reporter.ReportEvent
      { authToken := "", sessionID := "AAAABBBBCCCCDDDD", tags := []
        enabled := true, shuttingDown := true
        group := { limit := 16, active := 0 } }
      { sessionId := "", timestamp := none, kind := TelemetryEventKind.info
        name := "n", message := "", values := [], stackTrace := [], tags := [] }
      4).dispatched = false :=
  ⟨(C4_shuttingDown_monotonic _ ReporterOp.shutdownBegin
      { sessionId := "", timestamp := none, kind := TelemetryEventKind.info
        name := "n", message := "", values := [], stackTrace := [], tags := [] }
      4 (by decide)).1,
   ((C4_shuttingDown_monotonic _ ReporterOp.shutdownBegin _ 4 (by decide)).2.2
      (by decide)).1⟩

/-- Claim C6: `NewReporter` stores `enabled` as exactly the check that the
opt-out variable is unset; any non-empty value makes the reporter disabled
for its whole lifetime; construction is a total function (it always
succeeds); no operation modifies the stored flag (`ReportEvent` and
`shutdownBegin` preserve it, and neither takes the environment as an input,
so the environment is read only by `NewReporter`); and a disabled reporter's
`ReportEvent` only debug-logs and drops, leaving the event and every part of
the state untouched. -/
theorem C6_optout_read_once (env : String → String) (conf : Configuration)
    (rand : Nat → Fin 62) (r : ReporterState) (event : TelemetryEvent)
    (now : Nat) :
    (NewReporter env conf rand).1.enabled = (env telemetryOptOutEnvVar == "") ∧
    (env telemetryOptOutEnvVar ≠ "" →
      (NewReporter env conf rand).1.enabled = false) ∧
    (Reporter.ReportEvent r event now).state.enabled = r.enabled ∧
    (Reporter.shutdownBegin r).enabled = r.enabled ∧
    (r.enabled = false →
      Reporter.ReportEvent r event now =
        { event := event
          logs := [LogMsg.mk LogLevel.debug "Telemetry reporting is disabled, dropping event"]
          dispatched := false, pending := none, state := r }) := by
  refine ⟨rfl, ?_, (reportEvent_preserves_flags r event now).2, rfl,
    fun hdis => reportEvent_disabled_eq r event now hdis⟩
  intro h
  simpa [NewReporter] using h

/-- Witness for C6: with the opt-out variable set to "1", the constructed
reporter is disabled, and a disabled reporter's ReportEvent leaves the
event untouched. -/
theorem C6_witness :
    (NewReporter (fun _ => "1")
      { baseURL := "https://telemetry.example", authToken := "", tags := [] }
      (fun _ => (0 : Fin 62))).1.enabled = false :=
  (C6_optout_read_once (fun _ => "1")
    { baseURL := "https://telemetry.example", authToken := "", tags := [] }
    (fun _ => (0 : Fin 62))
    { authToken := "", sessionID := "AAAABBBBCCCCDDDD", tags := []
      enabled := false, shuttingDown := false
      group := { limit := 16, active := 0 } }
    { sessionId := "", timestamp := none, kind := TelemetryEventKind.info
      name := "n", message := "", values := [], stackTrace := [], tags := [] }
    0).2.1 (by decide)

/-- Claim C2 evaluated at a failing transport send: the background task
swallows the failure (it returns nil to the group) and emits the debug-level
log line, but — contrary to the claim and to the code's own comment about
not spamming — it ALSO prints a line to stdout via fmt.Println. The stray
stdout write is the code bug; everything else matches the claim. -/
theorem C2_println_on_failure (tok : String) (event : TelemetryEvent) :
    (Reporter.sendTask tok event
      (some (GoError.other "connection refused"))).2.retVal = none ∧
    (Reporter.sendTask tok event
      (some (GoError.other "connection refused"))).2.logs =
      [LogMsg.mk LogLevel.debug "Failed to report event"] ∧
    (Reporter.sendTask tok event
      (some (GoError.other "connection refused"))).2.stdout =
      ["Failed to report event connection refused"] :=
  ⟨rfl, rfl, rfl⟩

theorem waitResult_append (l m : List (Option GoError)) :
    waitResult (l ++ m) = match waitResult l with
      | some e => some e
      | none => waitResult m := by
  induction l with
  | nil => rfl
  | cons a rest ih => cases a <;> simp [waitResult, ih]

/-- Claim C5: in both `Close` and `Shutdown`, a Wait outcome of plain
cancellation is treated as success (the method returns nil), while a
non-cancellation error propagates out unchanged; and `Shutdown` after a
deadline expiry returns exactly what `Close` returns. -/
theorem C5_cancellation_not_error (l₁ l₂ : List (Option GoError)) (e : GoError)
    (h₁ : waitResult l₁ = some GoError.canceled)
    (h₂ : waitResult l₂ = some e) (hne : e.isCanceled = false) :
    Reporter.Close l₁ = none ∧
    Reporter.Shutdown ShutdownRace.reportsFirst l₁ = none ∧
    Reporter.Close l₂ = some e ∧
    Reporter.Shutdown ShutdownRace.reportsFirst l₂ = some e ∧
    Reporter.Shutdown ShutdownRace.deadlineFirst l₂ = Reporter.Close l₂ := by
  refine ⟨?_, ?_, ?_, ?_, rfl⟩
  · show dropCanceled (waitResult (l₁ ++ [some GoError.canceled])) = none
    rw [waitResult_append, h₁]
    rfl
  · show dropCanceled (waitResult l₁) = none
    rw [h₁]
    rfl
  · show dropCanceled (waitResult (l₂ ++ [some GoError.canceled])) = some e
    rw [waitResult_append, h₂]
    simp [dropCanceled, hne]
  · show dropCanceled (waitResult l₂) = some e
    rw [h₂]
    simp [dropCanceled, hne]

/-- Witness for C5 with a one-task completion order: a cancelled Wait gives a
nil return, a genuine error propagates. -/
theorem C5_witness :
    Reporter.Close [some GoError.canceled] = none ∧
    Reporter.Close [some (GoError.other "boom")] = some (GoError.other "boom") :=
  ⟨(C5_cancellation_not_error [some GoError.canceled]
      [some (GoError.other "boom")] (GoError.other "boom") rfl rfl rfl).1,
   (C5_cancellation_not_error [some GoError.canceled]
      [some (GoError.other "boom")] (GoError.other "boom") rfl rfl rfl).2.2.1⟩

theorem sendTask_fst (tok : String) (event : TelemetryEvent)
    (terr : Option GoError) :
    (Reporter.sendTask tok event terr).1 = buildRequest tok event := by
  cases terr <;> rfl

/-- Claim C9: a delivered request carries `Authorization: Bearer token`
exactly when a non-empty auth token is configured, and carries no header at
all (in particular no Authorization header) when the token is empty; in both
cases the payload is the stamped event itself. -/
theorem C9_auth_bearer_header (tok : String) (event event2 : TelemetryEvent)
    (terr terr2 : Option GoError) (htok : tok ≠ "") :
    (Reporter.sendTask tok event terr).1.headers =
      [("Authorization", "Bearer " ++ tok)] ∧
    (Reporter.sendTask tok event terr).1.msg = event ∧
    (Reporter.sendTask "" event2 terr2).1.headers = [] ∧
    (Reporter.sendTask "" event2 terr2).1.msg = event2 := by
  rw [sendTask_fst, sendTask_fst]
  refine ⟨?_, ?_, rfl, rfl⟩ <;> simp [buildRequest, htok]

/-- Witness for C9 with a concrete token and a concrete tokenless request. -/
theorem C9_witness :
    (Reporter.sendTask "secret"
      { sessionId := "s", timestamp := some 1, kind := TelemetryEventKind.info
        name := "n", message := "", values := [], stackTrace := [], tags := [] }
      none).1.headers = [("Authorization", "Bearer " ++ "secret")] ∧
    (Reporter.sendTask ""
      { sessionId := "s", timestamp := some 1, kind := TelemetryEventKind.info
        name := "n", message := "", values := [], stackTrace := [], tags := [] }
      none).1.headers = [] :=
  ⟨(C9_auth_bearer_header "secret"
      { sessionId := "s", timestamp := some 1, kind := TelemetryEventKind.info
        name := "n", message := "", values := [], stackTrace := [], tags := [] }
      { sessionId := "s", timestamp := some 1, kind := TelemetryEventKind.info
        name := "n", message := "", values := [], stackTrace := [], tags := [] }
      none none (by decide)).1,
   (C9_auth_bearer_header "secret"
      { sessionId := "s", timestamp := some 1, kind := TelemetryEventKind.info
        name := "n", message := "", values := [], stackTrace := [], tags := [] }
      { sessionId := "s", timestamp := some 1, kind := TelemetryEventKind.info
        name := "n", message := "", values := [], stackTrace := [], tags := [] }
      none none (by decide)).2.2.1⟩

theorem sendTask_retVal (tok : String) (event : TelemetryEvent)
    (terr : Option GoError) :
    (Reporter.sendTask tok event terr).2.retVal = none := by
  cases terr <;> rfl

theorem dropCanceled_waitResult_none (l : List (Option GoError))
    (h : ∀ x ∈ l, x = none ∨ x = some GoError.canceled) :
    dropCanceled (waitResult l) = none := by
  induction l with
  | nil => rfl
  | cons a rest ih =>
    rcases h a (List.mem_cons_self a rest) with ha | ha
    · subst ha
      exact ih (fun x hx => h x (List.mem_cons_of_mem _ hx))
    · subst ha
      rfl

/-- Claim C10: every background submission task returns nil to the task
group regardless of transport outcome; therefore, for any completion order
made up of submission-task results plus possibly the cancellation sentinel
that `Close` injects, `Close` returns nil and `Shutdown` returns nil on both
of its paths. -/
theorem C10_close_shutdown_nil (tok : String)
    (sends : List (TelemetryEvent × Option GoError))
    (order : List (Option GoError))
    (horder : ∀ x ∈ order,
      x ∈ sends.map (fun s => (Reporter.sendTask tok s.1 s.2).2.retVal) ∨
      x = some GoError.canceled) :
    (∀ s ∈ sends, (Reporter.sendTask tok s.1 s.2).2.retVal = none) ∧
    Reporter.Close order = none ∧
    Reporter.Shutdown ShutdownRace.deadlineFirst order = none ∧
    Reporter.Shutdown ShutdownRace.reportsFirst order = none := by
  have hall : ∀ x ∈ order, x = none ∨ x = some GoError.canceled := by
    intro x hx
    rcases horder x hx with hmem | hc
    · rcases List.mem_map.mp hmem with ⟨s, _, hs⟩
      rw [← hs, sendTask_retVal]
      exact Or.inl rfl
    · exact Or.inr hc
  have hall2 : ∀ x ∈ order ++ [some GoError.canceled],
      x = none ∨ x = some GoError.canceled := by
    intro x hx
    rcases List.mem_append.mp hx with hmem | hmem
    · exact hall x hmem
    · exact Or.inr (by simpa using hmem)
  refine ⟨fun s _ => sendTask_retVal tok s.1 s.2, ?_, ?_, ?_⟩
  · exact dropCanceled_waitResult_none _ hall2
  · exact dropCanceled_waitResult_none _ hall2
  · exact dropCanceled_waitResult_none _ hall

/-- Witness for C10 with one successfully delivered send and the sentinel. -/
theorem C10_witness :
    Reporter.Close [none, some GoError.canceled] = none ∧
    Reporter.Shutdown ShutdownRace.reportsFirst
      [none, some GoError.canceled] = none :=
  ⟨(C10_close_shutdown_nil ""
      [({ sessionId := "s", timestamp := some 1
          kind := TelemetryEventKind.info, name := "n", message := ""
          values := [], stackTrace := [], tags := [] }, none)]
      [none, some GoError.canceled] (by decide)).2.1,
   (C10_close_shutdown_nil ""
      [({ sessionId := "s", timestamp := some 1
          kind := TelemetryEventKind.info, name := "n", message := ""
          values := [], stackTrace := [], tags := [] }, none)]
      [none, some GoError.canceled] (by decide)).2.2.2⟩

/-- Claim C8: `GenerateID n` yields, for every random source, a string of
exactly `n` characters each drawn from the 62-symbol alphanumeric alphabet
(every character of that alphabet is an uppercase letter, a lowercase letter
or a digit), and `NewReporter` stores `GenerateID 16` — a 16-character
session identifier — as the session id. -/
theorem C8_generateID_alphanumeric (n : Nat) (rand : Nat → Fin 62)
    (env : String → String) (conf : Configuration) :
    (GenerateID n rand).length = n ∧
    (∀ c ∈ (GenerateID n rand).data, c ∈ letters.data) ∧
    (∀ c ∈ letters.data, (c.isUpper || c.isLower || c.isDigit) = true) ∧
    letters.length = 62 ∧
    (NewReporter env conf rand).1.sessionID = GenerateID 16 rand ∧
    (NewReporter env conf rand).1.sessionID.length = 16 := by
  have hlen : ∀ m, (GenerateID m rand).length = m := by
    intro m
    show ((List.range m).map (fun i => letters.data.getD (rand i).val 'a')).length = m
    simp
  refine ⟨hlen n, ?_, by decide, by decide, rfl, hlen 16⟩
  intro c hc
  have hc' : c ∈ (List.range n).map (fun i => letters.data.getD (rand i).val 'a') := hc
  rcases List.mem_map.mp hc' with ⟨i, _, hi⟩
  have hlt : (rand i).val < letters.data.length := by
    have h62 : letters.data.length = 62 := by decide
    rw [h62]
    exact (rand i).isLt
  rw [← hi, List.getD_eq_getElem letters.data 'a' hlt]
  exact List.getElem_mem hlt

/-- Witness for C8 at a concrete length and random source. -/
theorem C8_witness :
    (GenerateID 3 (fun _ => (0 : Fin 62))).length = 3 ∧ 'a' ∈ letters.data :=
  ⟨(C8_generateID_alphanumeric 3 (fun _ => (0 : Fin 62)) (fun _ => "")
      { baseURL := "", authToken := "", tags := [] }).1,
   (C8_generateID_alphanumeric 3 (fun _ => (0 : Fin 62)) (fun _ => "")
      { baseURL := "", authToken := "", tags := [] }).2.1 'a' (by decide)⟩
